import Mathlib

/-!
# Verification of the gameplay simulation layer of a Pong-style game

Shallow embedding of `src/src/main.rs` (a Bevy / bevy_xpbd_2d arcade game):
the data model (`Ball`, `Goal`, `Paddle`, `Score`, `PointBallCount`, `Side`),
the goal-resolution system `check_goals`, the spawn scheduler `spawn_ball`
with its Bevy `Timer`, the deferred force applicator
`apply_delayed_external_forces`, and the paddle controller `move_paddle`.

Machine integers (`usize`, `u8`) are modelled as `Nat`; the only arithmetic
the embedded systems perform on them is `+ 1` and a guarded `checked_sub`,
so no overflow wrap is reachable and `Nat` is faithful.  `f32` quantities in
the paddle controller are modelled as real numbers.  Entity ids are `Nat`.
-/

namespace PongGame

/-- Entity identifier (Bevy `Entity`). -/
abbrev EntityId := Nat

/-- Source `enum Side { Random, Left, Right }`. -/
inductive Side where
  | Random : Side
  | Left : Side
  | Right : Side
  deriving DecidableEq, Repr

/-- Source `Side::opposite`: `Left ↦ Right`, `Right ↦ Left`, anything else to `Random`. -/
def Side.opposite : Side → Side
  | .Left => .Right
  | .Right => .Left
  | _ => .Random

/-- Source `struct Goal { first_player: bool, side: Side }`. -/
structure Goal where
  first_player : Bool
  side : Side
  deriving DecidableEq, Repr

/-- Source `struct Ball { points: usize }`. -/
structure Ball where
  points : Nat
  deriving DecidableEq, Repr

/-- Source `struct Score { first_player: usize, second_player: usize }`. -/
structure Score where
  first_player : Nat
  second_player : Nat
  deriving DecidableEq, Repr

/-- A `Collision(contact)` event names the two colliding entities
(`contact.entity1`, `contact.entity2`). -/
structure CollisionEvent where
  entity1 : EntityId
  entity2 : EntityId
  deriving DecidableEq, Repr

/-- Component tables visible to `check_goals`'s queries: which entities carry a
`Goal` component, which carry a `Ball` component, and which entities are live
in the world when the queued commands are flushed. -/
structure QueryWorld where
  goals : EntityId → Option Goal
  balls : EntityId → Option Ball
  live : List EntityId

/-- The nested `if let` chain of `check_goals` (main.rs 444-459): try
`entity1` as the goal and `entity2` as the ball; otherwise try `entity2` as
the goal and `entity1` as the ball; otherwise no goal pairing.  Returns
`(goal, goal_entity, ball, ball_entity)` on success. -/
def goalBallPair (w : QueryWorld) (e1 e2 : EntityId) :
    Option (Goal × EntityId × Ball × EntityId) :=
  match w.goals e1 with
  | some goal =>
    match w.balls e2 with
    | some ball => some (goal, e1, ball, e2)
    | none => none
  | none =>
    match w.goals e2 with
    | some goal =>
      match w.balls e1 with
      | some ball => some (goal, e2, ball, e1)
      | none => none
    | none => none

/-- Source `point_ball_count.0.checked_sub(1)` on the `u8` counter: `some (c - 1)`
when `1 ≤ c`, `none` on underflow. -/
def checkedSub1 (c : Nat) : Option Nat :=
  if 1 ≤ c then some (c - 1) else none

/-- Lines 466-468: `if let Some(new_score) = point_ball_count.0.checked_sub(1)
{ point_ball_count.0 = new_score; }` — the counter is decremented only when
the subtraction succeeds, otherwise left untouched. -/
def pointDecrement (c : Nat) : Nat :=
  match checkedSub1 c with
  | some newScore => newScore
  | none => c

/-- Mutable state of one `check_goals` run: the `Score` resource, the
`PointBallCount` resource, and the queue of `despawn_recursive` commands
issued so far (Bevy `Commands` are deferred until the system finishes). -/
structure CheckGoalsState where
  score : Score
  count : Nat
  despawns : List EntityId
  deriving DecidableEq, Repr

/-- Body of the `for Collision(contact)` loop of `check_goals` (461-472) for
one event: on a goal/ball pairing, bump the scoring player's counter chosen by
`goal.first_player`, apply the guarded decrement to `PointBallCount`, then
queue the ball entity for despawn (`commands.get_entity` + `despawn_recursive`
is deferred, so it is recorded in the command queue). -/
def processEvent (w : QueryWorld) (st : CheckGoalsState) (ev : CollisionEvent) :
    CheckGoalsState :=
  match goalBallPair w ev.entity1 ev.entity2 with
  | some (goal, _goalEntity, _ball, ballEntity) =>
    let score' :=
      if goal.first_player then
        { st.score with first_player := st.score.first_player + 1 }
      else
        { st.score with second_player := st.score.second_player + 1 }
    { score := score'
      count := pointDecrement st.count
      despawns := st.despawns ++ [ballEntity] }
  | none => st

/-- One whole `check_goals` run over the frame's collision-event batch. -/
def checkGoals (w : QueryWorld) (st : CheckGoalsState)
    (evs : List CollisionEvent) : CheckGoalsState :=
  evs.foldl (processEvent w) st

/-- Flushing one queued `despawn_recursive` command against the set of live
entities: remove the entity if present, otherwise a no-op (the command queue
was guarded by `commands.get_entity`, and despawning a missing entity only
warns).  Modeled as a total function — there is no failure path. -/
def applyDespawn (live : List EntityId) (e : EntityId) : List EntityId :=
  live.filter (fun x => x ≠ e)

/-- Flushing the whole despawn command queue at the end of the frame. -/
def flushDespawns (live : List EntityId) (q : List EntityId) : List EntityId :=
  q.foldl applyDespawn live

/-! ## Spawn scheduler (`spawn_ball`, main.rs 345-420)

`Local<Timer>` starts as `Timer::default()` (zero duration, non-repeating,
so it is finished as soon as it is first ticked).  Durations and deltas are
nanoseconds, modelled as `Nat`. -/

/-- Bevy non-repeating `Timer`: elapsed time is clamped to the duration. -/
structure Timer where
  elapsed : Nat
  duration : Nat
  deriving DecidableEq, Repr

/-- Source `Timer::default()`. -/
def Timer.default : Timer := { elapsed := 0, duration := 0 }

/-- Source `timer.tick(delta)` for a non-repeating timer: advance and clamp. -/
def Timer.tick (t : Timer) (delta : Nat) : Timer :=
  { t with elapsed := min (t.elapsed + delta) t.duration }

/-- Source `timer.finished()`. -/
def Timer.finished (t : Timer) : Bool :=
  t.duration ≤ t.elapsed

/-- Source `timer.set_duration(d)` followed by `timer.reset()` (lines 366-367). -/
def Timer.setDurationReset (t : Timer) (d : Nat) : Timer :=
  { t with duration := d, elapsed := 0 }

/-- Source `Duration::from_millis(10)` in nanoseconds. -/
def spawnCooldownNs : Nat := 10000000

/-- Result of one `spawn_ball` run: whether a ball entity was spawned this
frame, and the timer state carried to the next frame. -/
structure SpawnOutcome where
  spawned : Bool
  timer : Timer
  deriving DecidableEq, Repr

/-- One run of `spawn_ball`: tick the cooldown timer; when it has finished,
run the shape intersection query (a ball-sized collider at `Vec2::ZERO`
masked to the `Ball` and `Paddle` layers — its result list is the
`intersections` input here); only when the query is empty reset the cooldown
to 10 ms and spawn the ball.  When the zone is occupied nothing is reset and
nothing spawns. -/
def spawnBall (t : Timer) (delta : Nat) (intersections : List EntityId) :
    SpawnOutcome :=
  let t' := t.tick delta
  if t'.finished then
    if intersections.isEmpty then
      { spawned := true, timer := t'.setDurationReset spawnCooldownNs }
    else
      { spawned := false, timer := t' }
  else
    { spawned := false, timer := t' }

/-! ## Deferred force applicator (`apply_delayed_external_forces`, 422-432)

One frame of the `Update` schedule as it affects balls and their
`DelayedExternalForce` markers: `apply_delayed_external_forces` queries the
world as it stands at the start of the frame and, for every entity carrying
the marker, inserts the wrapped `ExternalForce` and removes the marker;
`spawn_ball` may create a new ball carrying the marker.  Both act through
`Commands`, which are flushed at the end of the frame, so a ball spawned in
frame `n` first becomes visible to queries in frame `n + 1`.  The payload
type `F` stands for the wrapped `ExternalForce` value. -/

/-- A ball entity as seen by the deferred-force simulation: the frame it was
spawned in, its current `DelayedExternalForce` marker (if still present), and
the log of `(frame, force)` applications performed on it. -/
structure SimBall (F : Type) where
  sid : Nat
  marker : Option F
  applied : List (Nat × F)
  deriving DecidableEq, Repr

/-- The simulated world: the upcoming frame number and the ball entities. -/
structure SimWorld (F : Type) where
  tick : Nat
  balls : List (SimBall F)
  deriving DecidableEq, Repr

/-- The `apply_delayed_external_forces` pass in frame `n`: every entity still
carrying a `DelayedExternalForce` gets the wrapped force inserted (logged as
an application at frame `n`) and the marker component removed. -/
def applyDelayedPass (F : Type) (n : Nat) (bs : List (SimBall F)) :
    List (SimBall F) :=
  bs.map fun b =>
    match b.marker with
    | some f => { b with marker := none, applied := b.applied ++ [(n, f)] }
    | none => b

/-- One frame: run the deferred-force pass, then (optionally) spawn a new
ball carrying a fresh `DelayedExternalForce` payload; the spawn command is
flushed at the end of the frame, after the pass has already run. -/
def simFrame (F : Type) (w : SimWorld F) (spawn : Option F) : SimWorld F :=
  let bs := applyDelayedPass F w.tick w.balls
  let bs' :=
    match spawn with
    | some f => bs ++ [{ sid := w.tick, marker := some f, applied := [] }]
    | none => bs
  { tick := w.tick + 1, balls := bs' }

/-- Run the simulation from the empty world at frame `0`, one entry of
`spawns` per frame (`some f` = `spawn_ball` spawned a ball with payload `f`
that frame). -/
def runSim (F : Type) (spawns : List (Option F)) : SimWorld F :=
  spawns.foldl (simFrame F) { tick := 0, balls := [] }

/-- Resources as initialized by `setup` (main.rs 151, 154):
`init_resource::<PointBallCount>()` and `init_resource::<Score>()` start both
at their `Default` zeros; no despawn commands are queued. -/
def initialState : CheckGoalsState :=
  { score := { first_player := 0, second_player := 0 }
    count := 0
    despawns := [] }

/-- Effect of one frame on the `check_goals` resources: the resources persist
across frames, while the previous frame's command queue has been flushed, so
each frame's `check_goals` starts with an empty queue.  A frame is given by
the component tables its queries see and its collision-event batch. -/
def frameStep (st : CheckGoalsState) (f : QueryWorld × List CollisionEvent) :
    CheckGoalsState :=
  checkGoals f.1 { st with despawns := [] } f.2

/-- Whole-program run, as it affects the `check_goals` resources, over any
sequence of frames. -/
def runGame (frames : List (QueryWorld × List CollisionEvent)) :
    CheckGoalsState :=
  frames.foldl frameStep initialState

/-- Invariant of the deferred-force simulation: every ball was spawned in an
earlier frame; a ball spawned in the immediately preceding frame still
carries its marker and has had no force applied; any older ball has lost its
marker and has had the force applied exactly once, in the frame right after
its spawn frame. -/
def simInv (F : Type) (w : SimWorld F) : Prop :=
  ∀ b ∈ w.balls,
    (b.sid + 1 = w.tick ∧ (∃ f, b.marker = some f) ∧ b.applied = []) ∨
    (b.sid + 1 < w.tick ∧ b.marker = none ∧
      ∃ f, b.applied = [(b.sid + 1, f)])

/-! ## Paddle controller (`move_paddle`, main.rs 496-553)

Two-dimensional `f32` vectors are modelled as pairs of real numbers; the
window, paddle and bound constants are the exact source expressions (all
values are integers, exactly representable in `f32`). -/

/-- Two-dimensional vector (`Vec2`). -/
abbrev V2 := ℝ × ℝ

/-- Source `WINDOW_SIZE: Vec2 = Vec2 { x: 1280., y: 720. }`. -/
noncomputable def WINDOW_SIZE : V2 := (1280, 720)

/-- Source `PADDLE_SIZE: Vec2 = Vec2 { x: 15., y: 60. }`. -/
noncomputable def PADDLE_SIZE : V2 := (15, 60)

/-- Source `P1_LEFT_BOUND = -(-PADDLE_SIZE.x + WINDOW_SIZE.x * 0.5)`. -/
noncomputable def P1_LEFT_BOUND : ℝ := -(-PADDLE_SIZE.1 + WINDOW_SIZE.1 * 0.5)

/-- Source `P1_RIGHT_BOUND = -(PADDLE_SIZE.x + WINDOW_SIZE.x * 0.25)`. -/
noncomputable def P1_RIGHT_BOUND : ℝ := -(PADDLE_SIZE.1 + WINDOW_SIZE.1 * 0.25)

/-- Source `P1_TOP_BOUND = PADDLE_SIZE.y + WINDOW_SIZE.y * 0.5`. -/
noncomputable def P1_TOP_BOUND : ℝ := PADDLE_SIZE.2 + WINDOW_SIZE.2 * 0.5

/-- Source `P1_BOTTOM_BOUND = -(PADDLE_SIZE.y + WINDOW_SIZE.y * 0.5)`. -/
noncomputable def P1_BOTTOM_BOUND : ℝ := -(PADDLE_SIZE.2 + WINDOW_SIZE.2 * 0.5)

/-- Source `LEFT_WALL = -(WINDOW_SIZE.x * 0.5)`. -/
noncomputable def LEFT_WALL : ℝ := -(WINDOW_SIZE.1 * 0.5)

/-- Source `RIGHT_WALL = -(WINDOW_SIZE.x * 0.25)`. -/
noncomputable def RIGHT_WALL : ℝ := -(WINDOW_SIZE.1 * 0.25)

/-- Source `TOP_WALL = WINDOW_SIZE.y * 0.5`. -/
noncomputable def TOP_WALL : ℝ := WINDOW_SIZE.2 * 0.5

/-- Source `BOTTOM_WALL = -(WINDOW_SIZE.y * 0.5)`. -/
noncomputable def BOTTOM_WALL : ℝ := -(WINDOW_SIZE.2 * 0.5)

/-- Source `PADDLE_SPEED: f32 = 5000.`. -/
noncomputable def PADDLE_SPEED : ℝ := 5000

/-- Euclidean length of a vector (`Vec2::length`). -/
noncomputable def vlength (v : V2) : ℝ := Real.sqrt (v.1 ^ 2 + v.2 ^ 2)

/-- Source `Vec2::normalize_or_zero`: the unit vector in the direction of
`v`, or zero when `v` is zero (the only `f32` case with a non-finite
reciprocal length that is reachable here). -/
noncomputable def normalizeOrZero (v : V2) : V2 :=
  if v = (0, 0) then (0, 0) else (v.1 / vlength v, v.2 / vlength v)

/-- Scalar multiplication of a vector (`Vec2 * f32`). -/
noncomputable def vscale (s : ℝ) (v : V2) : V2 := (s * v.1, s * v.2)

/-- Inputs the human-paddle branch of `move_paddle` reads from outside:
whether the left mouse button is pressed, the window's cursor position (if
any), and the resolved camera as its `viewport_to_world_2d` unprojection
function (`none` when `camera.iter().next()` finds no camera). -/
structure HumanInput where
  pressed : Bool
  cursor : Option V2
  camera : Option (V2 → Option V2)

/-- Chained pointer resolution: cursor position, then camera, then
unprojection; `none` as soon as any stage is unavailable. -/
def resolveTarget (inp : HumanInput) : Option V2 :=
  inp.cursor.bind fun c => inp.camera.bind fun unproj => unproj c

/-- Velocity update of the human-paddle branch (main.rs 505-522): if the
left button is not pressed, velocity is set to zero (and the loop
`continue`s); if the cursor, camera or unprojection is unavailable, the
branch `continue`s leaving velocity unchanged; otherwise velocity becomes
the paddle-to-target vector, normalized-or-zero, scaled by
`PADDLE_SPEED.min(distance / delta_seconds)`. -/
noncomputable def moveHumanVelocity (inp : HumanInput) (tpos vel : V2)
    (dt : ℝ) : V2 :=
  if !inp.pressed then (0, 0)
  else
    match inp.cursor with
    | none => vel
    | some cpos =>
      match inp.camera with
      | none => vel
      | some unproj =>
        match unproj cpos with
        | none => vel
        | some target =>
          let toTarget : V2 := (target.1 - tpos.1, target.2 - tpos.2)
          vscale (min PADDLE_SPEED (vlength toTarget / dt))
            (normalizeOrZero toTarget)

/-- First clamp `if` (main.rs 525-528) on a `(velocity, position)` pair:
left bound exceeded while still moving left zeroes `velocity.x` and snaps
`position.x` to `LEFT_WALL`. -/
noncomputable def clampLeft (p : V2 × V2) : V2 × V2 :=
  if p.2.1 < P1_LEFT_BOUND ∧ p.1.1 < 0 then
    ((0, p.1.2), (LEFT_WALL, p.2.2))
  else p

/-- Second clamp `if` (main.rs 529-532): right bound exceeded while still
moving right snaps `position.x` to `RIGHT_WALL` and zeroes `velocity.x`. -/
noncomputable def clampRight (p : V2 × V2) : V2 × V2 :=
  if p.2.1 > P1_RIGHT_BOUND ∧ p.1.1 > 0 then
    ((0, p.1.2), (RIGHT_WALL, p.2.2))
  else p

/-- Third clamp `if` (main.rs 533-536): top bound exceeded while still
moving up zeroes `velocity.y` and snaps `position.y` to `TOP_WALL`. -/
noncomputable def clampTop (p : V2 × V2) : V2 × V2 :=
  if p.2.2 > P1_TOP_BOUND ∧ p.1.2 > 0 then
    ((p.1.1, 0), (p.2.1, TOP_WALL))
  else p

/-- Fourth clamp `if` (main.rs 537-540): bottom bound exceeded while still
moving down zeroes `velocity.y` and snaps `position.y` to `BOTTOM_WALL`. -/
noncomputable def clampBottom (p : V2 × V2) : V2 × V2 :=
  if p.2.2 < P1_BOTTOM_BOUND ∧ p.1.2 < 0 then
    ((p.1.1, 0), (p.2.1, BOTTOM_WALL))
  else p

/-- Boundary-clamp pass of the human-paddle branch (main.rs 524-540): the
four `if` statements in source order; takes the paddle `Position` and the
just-computed velocity, returns `(velocity, position)` after the pass. -/
noncomputable def clampPaddle (pos vel : V2) : V2 × V2 :=
  clampBottom (clampTop (clampRight (clampLeft (vel, pos))))

/-! ## Parts of the repository missing from `src/`

The specification describes ball kinds (`Point | Gold | Multi |
SwitchSide`) with kind-dependent scoring and a side-switch effect.  The
`src/` snapshot has a single ball kind and its `check_goals` always adds 1,
so the kind dispatch below is modelled from the specification's words. -/

/-- Modelled from the spec: the ball `kind` (`Point | Gold | Multi |
SwitchSide`) of the data model, absent from `src/` where `Ball` has only a
`points` counter. -/
inductive BallKind where
  | Point : BallKind
  | Gold : BallKind
  | Multi : BallKind
  | SwitchSide : BallKind
  deriving DecidableEq, Repr

/-- Modelled from the spec: score value per ball kind — "Point ball = +1,
Gold ball = +3"; bonus balls (Multi, SwitchSide) "have no direct score
value". -/
def scoreValue : BallKind → Nat
  | .Point => 1
  | .Gold => 3
  | .Multi => 0
  | .SwitchSide => 0

/-- A resolved goal event of the spec-modelled goal resolver: which player's
goal was hit (`goal.is_first_player`) and the scoring ball's kind. -/
structure SpecGoalEvent where
  goal_first_player : Bool
  kind : BallKind
  deriving DecidableEq, Repr

/-- Modelled from the spec: the scoring effect of one goal event — "add 1
[respectively 3] to the scoring player's counter (attributed via
`goal.is_first_player`)", absent from `src/` where every goal adds 1. -/
def specScoreStep (s : Score) (ev : SpecGoalEvent) : Score :=
  if ev.goal_first_player then
    { s with first_player := s.first_player + scoreValue ev.kind }
  else
    { s with second_player := s.second_player + scoreValue ev.kind }

/-- Spec-modelled goal resolver folded over a sequence of goal events. -/
def specRunScore (s : Score) (evs : List SpecGoalEvent) : Score :=
  evs.foldl specScoreStep s

/-- State acted on by the SwitchSide effect: the two paddles (association
flag, side, position) and the two goals (association flag, side). -/
structure SPaddle where
  first_player : Bool
  side : Side
  pos : ℚ × ℚ
  vel : ℚ × ℚ
  deriving DecidableEq, Repr

/-- Goal state seen by the SwitchSide effect. -/
structure SGoal where
  first_player : Bool
  side : Side
  deriving DecidableEq, Repr

/-- World state the SwitchSide effect mutates. -/
structure SwitchWorld where
  paddle1 : SPaddle
  paddle2 : SPaddle
  goal1 : SGoal
  goal2 : SGoal
  deriving DecidableEq, Repr

/-- Modelled from the spec: the SwitchSide effect, absent from `src/` —
"flip both paddles' `side` field to its opposite, swap the two paddles'
spatial positions (position, not velocity), and flip every goal's
`is_first_player` flag". -/
def applySwitchSide (w : SwitchWorld) : SwitchWorld :=
  { paddle1 := { w.paddle1 with side := w.paddle1.side.opposite,
                                pos := w.paddle2.pos }
    paddle2 := { w.paddle2 with side := w.paddle2.side.opposite,
                                pos := w.paddle1.pos }
    goal1 := { w.goal1 with first_player := !w.goal1.first_player }
    goal2 := { w.goal2 with first_player := !w.goal2.first_player } }

/-! ## Helper lemmas -/

/-- The guarded `checked_sub` decrement coincides with `Nat` truncated
(saturating) subtraction by one. -/
theorem pointDecrement_eq_sub (c : Nat) : pointDecrement c = c - 1 := by
  cases c <;> simp [pointDecrement, checkedSub1]

/-- Processing one collision event never increases `PointBallCount`. -/
theorem processEvent_count_le (w : QueryWorld) (st : CheckGoalsState)
    (ev : CollisionEvent) : (processEvent w st ev).count ≤ st.count := by
  unfold processEvent
  rcases hgb : goalBallPair w ev.entity1 ev.entity2 with _ | ⟨g, ge, b, be⟩ <;>
    simp [pointDecrement_eq_sub]

/-- A whole `check_goals` run never increases `PointBallCount`. -/
theorem checkGoals_count_le (w : QueryWorld) (evs : List CollisionEvent) :
    ∀ st : CheckGoalsState, (checkGoals w st evs).count ≤ st.count := by
  induction evs with
  | nil => intro st; exact le_refl _
  | cons ev evs ih =>
    intro st
    simp only [checkGoals, List.foldl_cons]
    exact le_trans (ih (processEvent w st ev)) (processEvent_count_le w st ev)

/-- Opposite is an involution on `Side` (including `Random`). -/
theorem Side.opposite_opposite (s : Side) : s.opposite.opposite = s := by
  cases s <;> rfl

/-- One spec-modelled scoring step never decreases either counter. -/
theorem specScoreStep_mono (s : Score) (ev : SpecGoalEvent) :
    s.first_player ≤ (specScoreStep s ev).first_player ∧
    s.second_player ≤ (specScoreStep s ev).second_player := by
  unfold specScoreStep
  split <;> constructor <;> simp

/-- A spec-modelled scoring run never decreases either counter. -/
theorem specRunScore_mono (evs : List SpecGoalEvent) :
    ∀ s : Score, s.first_player ≤ (specRunScore s evs).first_player ∧
      s.second_player ≤ (specRunScore s evs).second_player := by
  induction evs with
  | nil => intro s; exact ⟨le_refl _, le_refl _⟩
  | cons ev evs ih =>
    intro s
    simp only [specRunScore, List.foldl_cons]
    exact ⟨le_trans (specScoreStep_mono s ev).1 (ih (specScoreStep s ev)).1,
      le_trans (specScoreStep_mono s ev).2 (ih (specScoreStep s ev)).2⟩

/-! ## Claims -/

/-- C5: for every sequence of goal events, `PointBallCount` never underflows
below zero: the scoring decrement is a saturating subtraction (it equals
`Nat` truncated subtraction, leaves a zero counter at zero, and over a whole
`check_goals` run the counter only decreases — no wrap, and as a total
function, no panic). -/
theorem claim_C5_count_saturates (c : Nat) (w : QueryWorld)
    (st : CheckGoalsState) (evs : List CollisionEvent) :
    pointDecrement c = c - 1 ∧ (c = 0 → pointDecrement c = 0) ∧
    (checkGoals w st evs).count ≤ st.count :=
  ⟨pointDecrement_eq_sub c,
   fun hc => by simp [hc, pointDecrement_eq_sub],
   checkGoals_count_le w evs st⟩

/-- Witness for C5 at a concrete input: a zero counter stays zero. -/
theorem claim_C5_count_saturates_witness : pointDecrement 0 = 0 :=
  (claim_C5_count_saturates 0
    { goals := fun _ => none, balls := fun _ => none, live := [] }
    initialState []).2.1 rfl

/-- C10: in every reachable state of the program, `PointBallCount` equals
`0`: it starts at its zero default, and its only mutation ever executed is
the guarded `checked_sub` decrement in `check_goals`, which cannot change a
zero value — over any sequence of frames the counter stays `0`. -/
theorem claim_C10_count_always_zero
    (frames : List (QueryWorld × List CollisionEvent)) :
    (runGame frames).count = 0 := by
  unfold runGame
  suffices h : ∀ st : CheckGoalsState, st.count = 0 →
      (frames.foldl frameStep st).count = 0 from h initialState rfl
  induction frames with
  | nil => intro st h; exact h
  | cons f fs ih =>
    intro st h
    simp only [List.foldl_cons]
    apply ih
    have h1 := checkGoals_count_le f.1 f.2 { st with despawns := [] }
    have h2 : ({ st with despawns := [] } : CheckGoalsState).count = st.count :=
      rfl
    simp only [frameStep]
    omega

/-- C1: every goal event pairing a goal with a ball adds exactly 1 (Point
ball) or exactly 3 (Gold ball) to the counter selected by the goal's
first-player flag, leaving the other counter unchanged, and over any
sequence of goal events both score counters are non-decreasing. -/
theorem claim_C1_scoring (s : Score) (ev : SpecGoalEvent)
    (evs : List SpecGoalEvent) :
    (ev.kind = BallKind.Point →
      (ev.goal_first_player = true →
        specScoreStep s ev =
          { first_player := s.first_player + 1
            second_player := s.second_player }) ∧
      (ev.goal_first_player = false →
        specScoreStep s ev =
          { first_player := s.first_player
            second_player := s.second_player + 1 })) ∧
    (ev.kind = BallKind.Gold →
      (ev.goal_first_player = true →
        specScoreStep s ev =
          { first_player := s.first_player + 3
            second_player := s.second_player }) ∧
      (ev.goal_first_player = false →
        specScoreStep s ev =
          { first_player := s.first_player
            second_player := s.second_player + 3 })) ∧
    s.first_player ≤ (specRunScore s evs).first_player ∧
    s.second_player ≤ (specRunScore s evs).second_player := by
  refine ⟨fun hk => ⟨fun hp => ?_, fun hp => ?_⟩,
    fun hk => ⟨fun hp => ?_, fun hp => ?_⟩, specRunScore_mono evs s⟩ <;>
    simp [specScoreStep, scoreValue, hk, hp]

/-- Witness for C1 at a concrete input: a Gold ball on the first player's
goal adds exactly 3 to the first player's counter. -/
theorem claim_C1_scoring_witness :
    specScoreStep { first_player := 0, second_player := 5 }
        { goal_first_player := true, kind := BallKind.Gold } =
      { first_player := 0 + 3, second_player := 5 } :=
  ((claim_C1_scoring { first_player := 0, second_player := 5 }
    { goal_first_player := true, kind := BallKind.Gold } []).2.1 rfl).1 rfl

/-- C4: the SwitchSide effect flips both paddles' sides to their opposites,
swaps the paddles' positions while leaving their velocities untouched, flips
every goal's first-player flag, and applying it twice restores the original
side and first-player assignments. -/
theorem claim_C4_switch_side (w : SwitchWorld) :
    ((applySwitchSide w).paddle1.side = w.paddle1.side.opposite ∧
     (applySwitchSide w).paddle2.side = w.paddle2.side.opposite) ∧
    ((applySwitchSide w).paddle1.pos = w.paddle2.pos ∧
     (applySwitchSide w).paddle2.pos = w.paddle1.pos ∧
     (applySwitchSide w).paddle1.vel = w.paddle1.vel ∧
     (applySwitchSide w).paddle2.vel = w.paddle2.vel) ∧
    ((applySwitchSide w).goal1.first_player = !w.goal1.first_player ∧
     (applySwitchSide w).goal2.first_player = !w.goal2.first_player) ∧
    ((applySwitchSide (applySwitchSide w)).paddle1.side = w.paddle1.side ∧
     (applySwitchSide (applySwitchSide w)).paddle2.side = w.paddle2.side ∧
     (applySwitchSide (applySwitchSide w)).goal1.first_player =
       w.goal1.first_player ∧
     (applySwitchSide (applySwitchSide w)).goal2.first_player =
       w.goal2.first_player) := by
  simp [applySwitchSide, Side.opposite_opposite]

/-- C6: goal scoring is triggered exactly when one entity of the collision
pair is a goal and the other a ball, in either order.  The hypothesis states
that no entity carries both a `Goal` and a `Ball` component, which holds in
every world the program builds (goals are walls spawned by `spawn_wall`,
balls by `spawn_ball`). -/
theorem claim_C6_pairing (w : QueryWorld) (e1 e2 : EntityId)
    (hdisj : ∀ e : EntityId, (w.goals e).isSome → (w.balls e).isSome → False) :
    (goalBallPair w e1 e2).isSome = true ↔
      (((w.goals e1).isSome = true ∧ (w.balls e2).isSome = true) ∨
       ((w.goals e2).isSome = true ∧ (w.balls e1).isSome = true)) := by
  unfold goalBallPair
  rcases h1 : w.goals e1 with _ | g1 <;> rcases h2 : w.balls e2 with _ | b2 <;>
    rcases h3 : w.goals e2 with _ | g2 <;>
      rcases h4 : w.balls e1 with _ | b1 <;>
        simp only [Option.isSome_none, Option.isSome_some] <;> simp
  exact hdisj e1 (by simp [h1]) (by simp [h4])

/-- Witness for C6 at a concrete world: entity 0 is the left goal, entity 1
a ball; the pairing fires with the goal in the first slot. -/
theorem claim_C6_pairing_witness :
    (goalBallPair
      { goals := fun e =>
          if e = 0 then some ({ first_player := true, side := Side.Left } : Goal)
          else none
        balls := fun e => if e = 1 then some ({ points := 0 } : Ball) else none
        live := [0, 1] } 0 1).isSome = true ↔
      ((((fun e : EntityId =>
          if e = 0 then some ({ first_player := true, side := Side.Left } : Goal)
          else none) 0).isSome = true ∧
        ((fun e : EntityId =>
          if e = 1 then some ({ points := 0 } : Ball) else none) 1).isSome = true) ∨
       (((fun e : EntityId =>
          if e = 0 then some ({ first_player := true, side := Side.Left } : Goal)
          else none) 1).isSome = true ∧
        ((fun e : EntityId =>
          if e = 1 then some ({ points := 0 } : Ball) else none) 0).isSome = true)) :=
  claim_C6_pairing _ 0 1 (by intro e hg hb; by_cases he : e = 0 <;>
    simp [he] at hg hb)

/-- C2: a spawn-cooldown tick materializes a ball only when the spawn-zone
query is empty; when the zone is occupied nothing spawns that frame, the
elapsed cooldown (the pending spawn) is kept — a finished timer stays
finished under further ticking — and the spawn fires on a later tick as soon
as the zone is clear. -/
theorem claim_C2_spawn_retry (t : Timer) (delta delta' : Nat)
    (ints ints' : List EntityId) :
    ((spawnBall t delta ints).spawned = true → ints = []) ∧
    (t.finished = true → (t.tick delta').finished = true) ∧
    ((t.tick delta).finished = true → ints ≠ [] →
      (spawnBall t delta ints).spawned = false ∧
      (spawnBall t delta ints).timer.finished = true ∧
      (ints' = [] →
        (spawnBall (spawnBall t delta ints).timer delta' ints').spawned =
          true)) := by
  have hpersist : ∀ (u : Timer) (d : Nat), u.finished = true →
      (u.tick d).finished = true := by
    intro u d hu
    simp only [Timer.finished, Timer.tick, decide_eq_true_eq] at *
    omega
  refine ⟨?_, hpersist t delta', fun hf hne => ?_⟩
  · intro h
    unfold spawnBall at h
    by_cases hfin : (t.tick delta).finished
    · by_cases hemp : ints.isEmpty
      · exact List.isEmpty_iff.mp hemp
      · simp [hfin, hemp] at h
    · simp [hfin] at h
  · have hemp : ints.isEmpty = false := by
      cases ints with
      | nil => exact absurd rfl hne
      | cons a l => rfl
    have hout : spawnBall t delta ints =
        { spawned := false, timer := t.tick delta } := by
      unfold spawnBall
      simp [hf, hemp]
    refine ⟨by rw [hout], by rw [hout]; exact hf, fun hi => ?_⟩
    rw [hout]
    unfold spawnBall
    simp [hpersist (t.tick delta) delta' hf, hi]

/-- Witness for C2 at a concrete input: the default (immediately finished)
timer with an occupied zone does not spawn, and spawns on the next tick once
the zone is clear. -/
theorem claim_C2_spawn_retry_witness :
    (spawnBall (spawnBall Timer.default 5 [3]).timer 0 []).spawned = true :=
  ((claim_C2_spawn_retry Timer.default 5 0 [3] []).2.2 (by decide)
    (by decide)).2.2 rfl


/-- After the deferred-force pass of frame `n`, every ball (old or just
processed) has lost its marker and carries exactly one application, made in
the frame right after its spawn frame. -/
theorem applyDelayedPass_preserves (F : Type) (n : Nat) (bs : List (SimBall F))
    (h : ∀ b ∈ bs,
      (b.sid + 1 = n ∧ (∃ f, b.marker = some f) ∧ b.applied = []) ∨
      (b.sid + 1 < n ∧ b.marker = none ∧
        ∃ f, b.applied = [(b.sid + 1, f)])) :
    ∀ b ∈ applyDelayedPass F n bs,
      b.sid + 1 < n + 1 ∧ b.marker = none ∧
        ∃ f, b.applied = [(b.sid + 1, f)] := by
  intro b hb
  unfold applyDelayedPass at hb
  obtain ⟨b0, hb0, heq⟩ := List.mem_map.mp hb
  rcases hm : b0.marker with _ | f
  · rw [hm] at heq
    simp only at heq
    subst heq
    rcases h b0 hb0 with ⟨_, ⟨f, hf⟩, _⟩ | ⟨hlt, hnone, f, happ⟩
    · rw [hm] at hf; cases hf
    · exact ⟨by omega, hnone, f, happ⟩
  · rw [hm] at heq
    simp only at heq
    subst heq
    rcases h b0 hb0 with ⟨hsid, _, happ⟩ | ⟨_, hnone, _⟩
    · refine ⟨by show b0.sid + 1 < n + 1; omega, rfl, f, ?_⟩
      show b0.applied ++ [(n, f)] = [(b0.sid + 1, f)]
      simp [happ, hsid]
    · rw [hm] at hnone; cases hnone

/-- One simulated frame preserves the deferred-force invariant. -/
theorem simFrame_preserves (F : Type) (w : SimWorld F) (s : Option F)
    (h : simInv F w) : simInv F (simFrame F w s) := by
  have hpass := applyDelayedPass_preserves F w.tick w.balls h
  intro b hb
  have htick : (simFrame F w s).tick = w.tick + 1 := rfl
  rw [htick]
  cases s with
  | none =>
    have hballs : (simFrame F w none).balls =
        applyDelayedPass F w.tick w.balls := rfl
    rw [hballs] at hb
    exact Or.inr (hpass b hb)
  | some f =>
    have hballs : (simFrame F w (some f)).balls =
        applyDelayedPass F w.tick w.balls ++
          [{ sid := w.tick, marker := some f, applied := [] }] := rfl
    rw [hballs] at hb
    rcases List.mem_append.mp hb with hleft | hright
    · exact Or.inr (hpass b hleft)
    · have hb' : b = { sid := w.tick, marker := some f, applied := [] } := by
        simpa using hright
      subst hb'
      exact Or.inl ⟨rfl, ⟨f, rfl⟩, rfl⟩

/-- The deferred-force invariant holds after any run from the empty world. -/
theorem runSim_invariant (F : Type) (spawns : List (Option F)) :
    simInv F (runSim F spawns) := by
  unfold runSim
  suffices h : ∀ w : SimWorld F, simInv F w →
      simInv F (spawns.foldl (simFrame F) w) from
    h { tick := 0, balls := [] } (fun b hb => absurd hb (by simp))
  induction spawns with
  | nil => intro w hw; exact hw
  | cons s ss ih =>
    intro w hw
    simp only [List.foldl_cons]
    exact ih (simFrame F w s) (simFrame_preserves F w s hw)

/-- C3: every spawned ball receives the impulse carried in its deferred-force
payload exactly one frame after its spawn frame — a ball spawned in the most
recent frame still carries its marker untouched with no force applied, and
every older ball has had the force applied exactly once, at spawn frame plus
one (so never on the spawn frame itself), with the marker removed in the same
step. -/
theorem claim_C3_delayed_force (F : Type) (spawns : List (Option F))
    (b : SimBall F) (hb : b ∈ (runSim F spawns).balls) :
    (b.sid + 1 = (runSim F spawns).tick ∧ (∃ f, b.marker = some f) ∧
      b.applied = []) ∨
    (b.sid + 1 < (runSim F spawns).tick ∧ b.marker = none ∧
      ∃ f, b.applied = [(b.sid + 1, f)]) :=
  runSim_invariant F spawns b hb

/-- Witness for C3 at a concrete run: a ball spawned in frame 0 has, after
frame 1, its force applied exactly once at frame 1 and no marker left. -/
theorem claim_C3_delayed_force_witness :
    ((⟨0, none, [(1, 7)]⟩ : SimBall Nat).sid + 1 =
        (runSim Nat [some 7, none]).tick ∧
      (∃ f, (⟨0, none, [(1, 7)]⟩ : SimBall Nat).marker = some f) ∧
      (⟨0, none, [(1, 7)]⟩ : SimBall Nat).applied = []) ∨
    ((⟨0, none, [(1, 7)]⟩ : SimBall Nat).sid + 1 <
        (runSim Nat [some 7, none]).tick ∧
      (⟨0, none, [(1, 7)]⟩ : SimBall Nat).marker = none ∧
      ∃ f, (⟨0, none, [(1, 7)]⟩ : SimBall Nat).applied =
        [((⟨0, none, [(1, 7)]⟩ : SimBall Nat).sid + 1, f)]) :=
  claim_C3_delayed_force Nat [some 7, none] ⟨0, none, [(1, 7)]⟩ (by decide)

/-- Despawning an entity that is not live is a no-op. -/
theorem applyDespawn_of_not_mem (live : List EntityId) (e : EntityId)
    (h : e ∉ live) : applyDespawn live e = live := by
  unfold applyDespawn
  apply List.filter_eq_self.mpr
  intro x hx
  have hne : x ≠ e := fun heq => h (heq ▸ hx)
  simp [hne]

/-- A despawned entity is gone from the live set. -/
theorem not_mem_applyDespawn (live : List EntityId) (e : EntityId) :
    e ∉ applyDespawn live e := by
  intro hmem
  have h := List.mem_filter.mp hmem
  simp at h

/-- Despawning one entity never resurrects another. -/
theorem not_mem_applyDespawn_of_not_mem (live : List EntityId)
    (x e : EntityId) (h : x ∉ live) : x ∉ applyDespawn live e :=
  fun hm => h (List.mem_of_mem_filter hm)

/-- Flushing a despawn queue never resurrects an entity. -/
theorem not_mem_flushDespawns_of_not_mem (q : List EntityId) :
    ∀ (live : List EntityId) (x : EntityId), x ∉ live →
      x ∉ flushDespawns live q := by
  induction q with
  | nil => intro live x h; exact h
  | cons a q ih =>
    intro live x h
    show x ∉ flushDespawns (applyDespawn live a) q
    exact ih (applyDespawn live a) x (not_mem_applyDespawn_of_not_mem live x a h)

/-- Every entity in the despawn queue is gone after the flush. -/
theorem flushDespawns_removes (q : List EntityId) :
    ∀ (live : List EntityId) (e : EntityId), e ∈ q →
      e ∉ flushDespawns live q := by
  induction q with
  | nil => intro live e h; cases h
  | cons a q ih =>
    intro live e h
    show e ∉ flushDespawns (applyDespawn live a) q
    rcases List.mem_cons.mp h with rfl | hq
    · exact not_mem_flushDespawns_of_not_mem q (applyDespawn live e) e
        (not_mem_applyDespawn live e)
    · exact ih (applyDespawn live a) e hq

/-- A `check_goals` run only ever appends to the despawn command queue. -/
theorem checkGoals_despawns_extend (w : QueryWorld)
    (evs : List CollisionEvent) :
    ∀ st : CheckGoalsState, ∃ tail,
      (checkGoals w st evs).despawns = st.despawns ++ tail := by
  induction evs with
  | nil => intro st; exact ⟨[], by simp [checkGoals]⟩
  | cons ev evs ih =>
    intro st
    obtain ⟨tail, htail⟩ := ih (processEvent w st ev)
    have hstep : checkGoals w st (ev :: evs) =
        checkGoals w (processEvent w st ev) evs := rfl
    rw [hstep]
    rcases hgb : goalBallPair w ev.entity1 ev.entity2 with _ | ⟨g, ge, bl, be⟩
    · have hpe : processEvent w st ev = st := by simp [processEvent, hgb]
      rw [hpe]
      exact ih st
    · have hd : (processEvent w st ev).despawns = st.despawns ++ [be] := by
        simp [processEvent, hgb]
      refine ⟨[be] ++ tail, ?_⟩
      rw [htail, hd, List.append_assoc]

/-- The ball entity of any matched collision event of the frame ends up in
the despawn command queue. -/
theorem mem_checkGoals_despawns (w : QueryWorld) (st : CheckGoalsState)
    (evs : List CollisionEvent) (ev : CollisionEvent) (hev : ev ∈ evs)
    (g : Goal) (ge : EntityId) (bl : Ball) (be : EntityId)
    (hpair : goalBallPair w ev.entity1 ev.entity2 = some (g, ge, bl, be)) :
    be ∈ (checkGoals w st evs).despawns := by
  obtain ⟨l1, l2, rfl⟩ := List.append_of_mem hev
  have hsplit : checkGoals w st (l1 ++ ev :: l2) =
      checkGoals w (processEvent w (checkGoals w st l1) ev) l2 := by
    simp [checkGoals, List.foldl_append]
  rw [hsplit]
  obtain ⟨tail, htail⟩ :=
    checkGoals_despawns_extend w l2 (processEvent w (checkGoals w st l1) ev)
  rw [htail]
  have hd : (processEvent w (checkGoals w st l1) ev).despawns =
      (checkGoals w st l1).despawns ++ [be] := by
    simp [processEvent, hpair]
  rw [hd]
  simp

/-- C7: for every matched goal-ball collision event, the kind-specific effect
(score bump and counter decrement) is applied in the same step the ball is
queued for despawn, the despawn itself happening only at the later command
flush; after the flush the ball is gone, despawning an entity that is not
live is a no-op rather than a failure, and despawning the same entity a
second time changes nothing. -/
theorem claim_C7_despawn (w : QueryWorld) (st : CheckGoalsState)
    (evs : List CollisionEvent) (ev : CollisionEvent) (g : Goal)
    (ge : EntityId) (bl : Ball) (be : EntityId) (live : List EntityId)
    (e : EntityId) (hev : ev ∈ evs)
    (hpair : goalBallPair w ev.entity1 ev.entity2 = some (g, ge, bl, be)) :
    processEvent w st ev =
      { score :=
          if g.first_player then
            { st.score with first_player := st.score.first_player + 1 }
          else
            { st.score with second_player := st.score.second_player + 1 }
        count := pointDecrement st.count
        despawns := st.despawns ++ [be] } ∧
    be ∉ flushDespawns live (checkGoals w st evs).despawns ∧
    (e ∉ live → applyDespawn live e = live) ∧
    applyDespawn (applyDespawn live e) e = applyDespawn live e := by
  refine ⟨by simp [processEvent, hpair], ?_, applyDespawn_of_not_mem live e,
    applyDespawn_of_not_mem _ _ (not_mem_applyDespawn live e)⟩
  exact flushDespawns_removes _ live be
    (mem_checkGoals_despawns w st evs ev hev g ge bl be hpair)

/-- Witness for C7 at a concrete world: entity 0 is the first player's goal,
entity 1 a live ball hit by event (0,1); the effect is applied with the
despawn queued, the flush removes ball 1, and despawning the absent entity 5
is a no-op and idempotent. -/
theorem claim_C7_despawn_witness :
    processEvent
        { goals := fun e =>
            if e = 0 then
              some ({ first_player := true, side := Side.Left } : Goal)
            else none
          balls := fun e =>
            if e = 1 then some ({ points := 0 } : Ball) else none
          live := [1, 2] }
        initialState ⟨0, 1⟩ =
      { score :=
          if ({ first_player := true, side := Side.Left } : Goal).first_player
          then
            { initialState.score with
                first_player := initialState.score.first_player + 1 }
          else
            { initialState.score with
                second_player := initialState.score.second_player + 1 }
        count := pointDecrement initialState.count
        despawns := initialState.despawns ++ [1] } ∧
    1 ∉ flushDespawns [1, 2]
        (checkGoals
          { goals := fun e =>
              if e = 0 then
                some ({ first_player := true, side := Side.Left } : Goal)
              else none
            balls := fun e =>
              if e = 1 then some ({ points := 0 } : Ball) else none
            live := [1, 2] }
          initialState [⟨0, 1⟩]).despawns ∧
    ((5 : EntityId) ∉ [1, 2] → applyDespawn [1, 2] 5 = [1, 2]) ∧
    applyDespawn (applyDespawn [1, 2] 5) 5 = applyDespawn [1, 2] 5 :=
  claim_C7_despawn
    { goals := fun e =>
        if e = 0 then
          some ({ first_player := true, side := Side.Left } : Goal)
        else none
      balls := fun e => if e = 1 then some ({ points := 0 } : Ball) else none
      live := [1, 2] }
    initialState [⟨0, 1⟩] ⟨0, 1⟩
    { first_player := true, side := Side.Left } 0 { points := 0 } 1 [1, 2] 5
    (by decide) (by decide)

/-- C8: the human paddle's velocity update per tick — not holding the
primary pointer button forces velocity to zero; an unavailable pointer
position, camera, or unprojection leaves velocity unchanged; otherwise the
velocity becomes the paddle-to-pointer vector normalized and scaled by
`min(PADDLE_SPEED, distance / delta_time)`. -/
theorem claim_C8_human_velocity (inp : HumanInput) (tpos vel : V2) (dt : ℝ) :
    (inp.pressed = false → moveHumanVelocity inp tpos vel dt = (0, 0)) ∧
    (inp.pressed = true → resolveTarget inp = none →
      moveHumanVelocity inp tpos vel dt = vel) ∧
    (∀ target : V2, inp.pressed = true → resolveTarget inp = some target →
      moveHumanVelocity inp tpos vel dt =
        vscale
          (min PADDLE_SPEED
            (vlength (target.1 - tpos.1, target.2 - tpos.2) / dt))
          (normalizeOrZero (target.1 - tpos.1, target.2 - tpos.2))) := by
  obtain ⟨p, cur, cam⟩ := inp
  refine ⟨fun hp => ?_, fun hp hr => ?_, fun target hp hr => ?_⟩
  · subst hp
    rfl
  · subst hp
    unfold moveHumanVelocity
    unfold resolveTarget at hr
    rcases cur with _ | cpos
    · rfl
    · rcases cam with _ | unproj
      · rfl
      · dsimp only
        simp only [Option.some_bind] at hr
        rw [hr]
        rfl
  · subst hp
    unfold moveHumanVelocity
    unfold resolveTarget at hr
    rcases cur with _ | cpos
    · cases hr
    · rcases cam with _ | unproj
      · cases hr
      · dsimp only
        simp only [Option.some_bind] at hr
        rw [hr]
        rfl

/-- Witness for C8 at a concrete input: with the button released, velocity
is forced to zero. -/
theorem claim_C8_human_velocity_witness :
    moveHumanVelocity { pressed := false, cursor := none, camera := none }
      (1, 2) (3, 4) 1 = (0, 0) :=
  (claim_C8_human_velocity
    { pressed := false, cursor := none, camera := none } (1, 2) (3, 4) 1).1
    rfl

/-- The left clamp never touches the `y` components. -/
theorem clampLeft_preserves_y (p : V2 × V2) :
    (clampLeft p).1.2 = p.1.2 ∧ (clampLeft p).2.2 = p.2.2 := by
  unfold clampLeft
  split <;> exact ⟨rfl, rfl⟩

/-- The right clamp never touches the `y` components. -/
theorem clampRight_preserves_y (p : V2 × V2) :
    (clampRight p).1.2 = p.1.2 ∧ (clampRight p).2.2 = p.2.2 := by
  unfold clampRight
  split <;> exact ⟨rfl, rfl⟩

/-- The top clamp never touches the `x` components. -/
theorem clampTop_preserves_x (p : V2 × V2) :
    (clampTop p).1.1 = p.1.1 ∧ (clampTop p).2.1 = p.2.1 := by
  unfold clampTop
  split <;> exact ⟨rfl, rfl⟩

/-- The bottom clamp never touches the `x` components. -/
theorem clampBottom_preserves_x (p : V2 × V2) :
    (clampBottom p).1.1 = p.1.1 ∧ (clampBottom p).2.1 = p.2.1 := by
  unfold clampBottom
  split <;> exact ⟨rfl, rfl⟩

/-- C9: each axis on which the human paddle lies outside its bound while its
velocity points further outward has that velocity component zeroed and the
position on that axis snapped to the corresponding wall coordinate by the
boundary-clamp pass. -/
theorem claim_C9_boundary_clamp (pos vel : V2) :
    (pos.1 < P1_LEFT_BOUND → vel.1 < 0 →
      (clampPaddle pos vel).1.1 = 0 ∧
        (clampPaddle pos vel).2.1 = LEFT_WALL) ∧
    (pos.1 > P1_RIGHT_BOUND → vel.1 > 0 →
      (clampPaddle pos vel).1.1 = 0 ∧
        (clampPaddle pos vel).2.1 = RIGHT_WALL) ∧
    (pos.2 > P1_TOP_BOUND → vel.2 > 0 →
      (clampPaddle pos vel).1.2 = 0 ∧
        (clampPaddle pos vel).2.2 = TOP_WALL) ∧
    (pos.2 < P1_BOTTOM_BOUND → vel.2 < 0 →
      (clampPaddle pos vel).1.2 = 0 ∧
        (clampPaddle pos vel).2.2 = BOTTOM_WALL) := by
  refine ⟨fun h1 h2 => ?_, fun h1 h2 => ?_, fun h1 h2 => ?_, fun h1 h2 => ?_⟩
  · -- left bound: the first `if` fires, the remaining three leave `x` alone
    have e1 : clampLeft (vel, pos) = ((0, vel.2), (LEFT_WALL, pos.2)) := by
      unfold clampLeft
      exact if_pos ⟨h1, h2⟩
    have e2 : clampRight ((0, vel.2), (LEFT_WALL, pos.2)) =
        ((0, vel.2), (LEFT_WALL, pos.2)) := by
      unfold clampRight
      exact if_neg (fun h => lt_irrefl 0 h.2)
    have h3 := clampTop_preserves_x ((0, vel.2), (LEFT_WALL, pos.2))
    have h4 := clampBottom_preserves_x
      (clampTop ((0, vel.2), (LEFT_WALL, pos.2)))
    unfold clampPaddle
    rw [e1, e2]
    exact ⟨by rw [h4.1, h3.1], by rw [h4.2, h3.2]⟩
  · -- right bound: the first `if` is idle, the second fires
    have e1 : clampLeft (vel, pos) = (vel, pos) := by
      unfold clampLeft
      exact if_neg (fun h => lt_asymm h2 h.2)
    have e2 : clampRight (vel, pos) = ((0, vel.2), (RIGHT_WALL, pos.2)) := by
      unfold clampRight
      exact if_pos ⟨h1, h2⟩
    have h3 := clampTop_preserves_x ((0, vel.2), (RIGHT_WALL, pos.2))
    have h4 := clampBottom_preserves_x
      (clampTop ((0, vel.2), (RIGHT_WALL, pos.2)))
    unfold clampPaddle
    rw [e1, e2]
    exact ⟨by rw [h4.1, h3.1], by rw [h4.2, h3.2]⟩
  · -- top bound: the `x` clamps leave `y` alone, the third `if` fires, the
    -- fourth is idle because the `y` velocity is already zero
    have hy1 := clampLeft_preserves_y (vel, pos)
    have hy2 := clampRight_preserves_y (clampLeft (vel, pos))
    have e3 : clampTop (clampRight (clampLeft (vel, pos))) =
        (((clampRight (clampLeft (vel, pos))).1.1, 0),
          ((clampRight (clampLeft (vel, pos))).2.1, TOP_WALL)) := by
      unfold clampTop
      exact if_pos ⟨by rw [hy2.2, hy1.2]; exact h1, by rw [hy2.1, hy1.1]; exact h2⟩
    have e4 : clampBottom
        (((clampRight (clampLeft (vel, pos))).1.1, 0),
          ((clampRight (clampLeft (vel, pos))).2.1, TOP_WALL)) =
        (((clampRight (clampLeft (vel, pos))).1.1, 0),
          ((clampRight (clampLeft (vel, pos))).2.1, TOP_WALL)) := by
      unfold clampBottom
      exact if_neg (fun h => lt_irrefl 0 h.2)
    unfold clampPaddle
    rw [e3, e4]
    exact ⟨rfl, rfl⟩
  · -- bottom bound: the `x` clamps leave `y` alone, the third `if` is idle,
    -- the fourth fires
    have hy1 := clampLeft_preserves_y (vel, pos)
    have hy2 := clampRight_preserves_y (clampLeft (vel, pos))
    have e3 : clampTop (clampRight (clampLeft (vel, pos))) =
        clampRight (clampLeft (vel, pos)) := by
      unfold clampTop
      refine if_neg (fun h => lt_asymm h2 ?_)
      have := h.2
      rw [hy2.1, hy1.1] at this
      exact this
    have e4 : clampBottom (clampRight (clampLeft (vel, pos))) =
        (((clampRight (clampLeft (vel, pos))).1.1, 0),
          ((clampRight (clampLeft (vel, pos))).2.1, BOTTOM_WALL)) := by
      unfold clampBottom
      exact if_pos ⟨by rw [hy2.2, hy1.2]; exact h1, by rw [hy2.1, hy1.1]; exact h2⟩
    unfold clampPaddle
    rw [e3, e4]
    exact ⟨rfl, rfl⟩

/-- Witness for C9 at a concrete input: a paddle at `x = -700` (past the
left bound `-625`) still moving left gets its `x` velocity zeroed and its
`x` position snapped to the left wall `-640`. -/
theorem claim_C9_boundary_clamp_witness :
    (clampPaddle ((-700 : ℝ), 0) ((-1 : ℝ), 0)).1.1 = 0 ∧
      (clampPaddle ((-700 : ℝ), 0) ((-1 : ℝ), 0)).2.1 = LEFT_WALL :=
  (claim_C9_boundary_clamp ((-700 : ℝ), 0) ((-1 : ℝ), 0)).1
    (by norm_num [P1_LEFT_BOUND, PADDLE_SIZE, WINDOW_SIZE])
    (by norm_num)
